import Mathlib

/-!
# Verification of the comment-polling automation loop

Shallow embedding of the comment monitor (`automation/commentAutomator.js`),
the text-generation wrapper (`services/geminiApi.js`) and the publishing
interface of `services/youtubeApi.js`, together with proofs of the spec's
testable properties.

External collaborators (the remote comment source, reply sink and text
generator) are modelled at their interface boundary: each poll cycle is a
deterministic function of the monitor state and an environment record that
fixes the outcome of every outbound call made during that cycle.
-/

namespace Dashboard

/-! ## Data model: comment threads as fetched from the remote source

`fetchComments` returns `data.items`, an array of commentThread resources.
The monitor reads `comment.id`, `commentThread.snippet.topLevelComment.id`,
`...topLevelComment.snippet.textOriginal` and
`...topLevelComment.snippet.authorDisplayName`, so the embedding keeps the
thread's own `id` and the nested top-level comment as distinct fields. -/

structure TopLevelCommentSnippet where
  textOriginal : String
  authorDisplayName : String
  deriving Repr, DecidableEq

structure TopLevelComment where
  id : String
  snippet : TopLevelCommentSnippet
  deriving Repr, DecidableEq

structure CommentThreadSnippet where
  topLevelComment : TopLevelComment
  deriving Repr, DecidableEq

structure CommentThread where
  id : String
  snippet : CommentThreadSnippet
  deriving Repr, DecidableEq

/-! ## services/geminiApi.js: generateText

The single `fetch` call inside `generateText` is modelled by its observable
outcome.  `throwErr` stands for the fetch (or a response-body read) throwing,
`notOk` for `!response.ok` (which makes `generateText` throw internally and
land in its own `catch`), and `ok` carries the parsed JSON body. -/

structure GeminiPart where
  text : String
  deriving Repr, DecidableEq

structure GeminiContent where
  parts : List GeminiPart
  deriving Repr, DecidableEq

structure GeminiCandidate where
  content : Option GeminiContent
  deriving Repr, DecidableEq

structure GeminiResponse where
  candidates : Option (List GeminiCandidate)
  deriving Repr, DecidableEq

inductive GeminiHttpOutcome where
  | throwErr
  | notOk
  | ok (result : GeminiResponse)
  deriving Repr, DecidableEq

/-- `generateText(prompt)` from services/geminiApi.js.  The `prompt` argument
only shapes the outbound request body, whose response is supplied by
`outcome`; every control path of the JS function resolves with a string and
none rejects, so the embedding is a total function into `String`. -/
def generateText (prompt : String) (outcome : GeminiHttpOutcome) : String :=
  match prompt, outcome with
  | _, .throwErr => "Error generating reply."
  | _, .notOk => "Error generating reply."
  | _, .ok result =>
    match result.candidates with
    | some (c :: _) =>
      match c.content with
      | some content =>
        match content.parts with
        | p :: _ => p.text
        | [] => "Could not generate a reply."
      | none => "Could not generate a reply."
    | some [] => "Could not generate a reply."
    | none => "Could not generate a reply."

/-! ## automation/commentAutomator.js: monitor state and one poll cycle -/

/-- The module-level mutable state of automation/commentAutomator.js:
`monitoringInterval` (the `setInterval` handle, `null` when idle) and
`lastCheckedCommentIds` (a JS `Set` of processed comment ids, modelled as a
duplicate-free list queried with `contains`). -/
structure MonitorState where
  monitoringInterval : Option Nat
  lastCheckedCommentIds : List String
  deriving Repr, DecidableEq

/-- `lastCheckedCommentIds.add(commentId)`: JS `Set.add` is a no-op on a
member, otherwise inserts. -/
def addSeen (seen : List String) (cid : String) : List String :=
  if seen.contains cid then seen else seen ++ [cid]

/-- One `youtubeApi.postComment(accessToken, videoId, textContent,
parentCommentId)` attempt made by the cycle, with the outcome the remote
reply sink gave it. -/
structure PublishCall where
  accessToken : String
  videoId : String
  textContent : String
  parentCommentId : String
  succeeded : Bool
  deriving Repr, DecidableEq

/-- Outcomes of the outbound calls one poll cycle makes, fixed at the
interface boundary: the result of `youtubeApi.fetchComments` (`Except` for a
rejected promise), whether `geminiApi && typeof geminiApi.generateText ===
'function'` holds, the HTTP outcome of the i-th `generateText` call of the
cycle, and whether the i-th `postComment` call succeeds. -/
structure CycleEnv where
  fetchResult : Except String (List CommentThread)
  geminiAvailable : Bool
  gen : Nat → GeminiHttpOutcome
  post : Nat → Bool

/-- The default reply template of the monitor:
`` `Thanks for your comment, ${authorDisplayName}!` ``. -/
def defaultReply (authorDisplayName : String) : String :=
  "Thanks for your comment, " ++ authorDisplayName ++ "!"

/-- The prompt the monitor hands to `geminiApi.generateText`. -/
def replyPrompt (commentText : String) : String :=
  "Write a concise, friendly, and appreciative reply to the following YouTube comment on my video: \"" ++ commentText ++ "\""

/-- The publish attempt the loop body of `checkForNewComments` produces for
one comment thread, given that `i` generator/post outcomes were already
consumed this cycle: the reply text is the default template, replaced by
`generateText`'s resolved value when the gemini module is available, and the
parent of the posted reply is the top-level comment's id. -/
def cycleCall (accessToken videoId : String) (env : CycleEnv) (i : Nat)
    (commentThread : CommentThread) : PublishCall :=
  { accessToken := accessToken
    videoId := videoId
    textContent :=
      if env.geminiAvailable then
        generateText (replyPrompt commentThread.snippet.topLevelComment.snippet.textOriginal)
          (env.gen i)
      else
        defaultReply commentThread.snippet.topLevelComment.snippet.authorDisplayName
    parentCommentId := commentThread.snippet.topLevelComment.id
    succeeded := env.post i }

/-- The `for (const commentThread of newComments)` loop body of
`checkForNewComments`, processing the remaining new comments; `i` counts the
comments already processed in this cycle, indexing the per-call outcomes in
`env`.  For each thread: compute the reply text (default template, replaced
by `generateText`'s resolved value when the gemini module is available — the
surrounding `catch (llmError)` is unreachable because `generateText` never
rejects), attempt `postComment` (its own `try`/`catch` swallows failure),
then add the top-level comment's id to the seen set. -/
def processNewComments (accessToken videoId : String) (env : CycleEnv) :
    List CommentThread → Nat → List String → List String × List PublishCall
  | [], _, seen => (seen, [])
  | commentThread :: rest, i, seen =>
    let topLevelComment := commentThread.snippet.topLevelComment
    let commentId := topLevelComment.id
    let commentText := topLevelComment.snippet.textOriginal
    let authorDisplayName := topLevelComment.snippet.authorDisplayName
    let replyText :=
      if env.geminiAvailable then
        generateText (replyPrompt commentText) (env.gen i)
      else
        defaultReply authorDisplayName
    let call : PublishCall :=
      { accessToken := accessToken, videoId := videoId,
        textContent := replyText, parentCommentId := commentId,
        succeeded := env.post i }
    let seen1 := addSeen seen commentId
    let (seenFinal, calls) := processNewComments accessToken videoId env rest (i + 1) seen1
    (seenFinal, call :: calls)

/-- `checkForNewComments(accessToken, videoId)`: fetch the threads (the outer
`try`/`catch` turns a fetch failure into a logged no-op, so the function is
total and the state is returned unchanged there), return early on a null or
empty list, filter out threads whose `id` is already in
`lastCheckedCommentIds`, then process the new ones in order.  Returns the
updated state and the publish attempts of the cycle. -/
def checkForNewComments (accessToken videoId : String) (env : CycleEnv)
    (st : MonitorState) : MonitorState × List PublishCall :=
  match env.fetchResult with
  | .error _ => (st, [])
  | .ok comments =>
    if comments.isEmpty then (st, [])
    else
      let newComments :=
        comments.filter fun comment => !(st.lastCheckedCommentIds.contains comment.id)
      let (seenFinal, calls) :=
        processNewComments accessToken videoId env newComments 0 st.lastCheckedCommentIds
      ({ st with lastCheckedCommentIds := seenFinal }, calls)

/-- A run of consecutive poll cycles of one process: fold
`checkForNewComments` over the per-cycle environments, concatenating the
publish attempts in order. -/
def runCycles (accessToken videoId : String) :
    List CycleEnv → MonitorState → MonitorState × List PublishCall
  | [], st => (st, [])
  | env :: envs, st =>
    let (st1, calls) := checkForNewComments accessToken videoId env st
    let (stFinal, laterCalls) := runCycles accessToken videoId envs st1
    (stFinal, calls ++ laterCalls)

/-! ## Scheduling: startMonitoring / stopMonitoring

`setInterval` hands back an opaque handle; the embedding draws handles from
a fresh counter and keeps the list of currently armed (not yet cleared)
interval handles, so "how many recurring schedules are live" is a stateable
question. -/

/-- The monitor state together with the runtime's timer bookkeeping:
`armed` is the list of live `setInterval` handles, `nextHandle` the next
fresh handle the runtime will hand out. -/
structure SchedState where
  monitor : MonitorState
  armed : List Nat
  nextHandle : Nat
  deriving Repr, DecidableEq

/-- `startMonitoring(accessToken, videoId, intervalMs)`: fail fast when the
access token or video id is missing (JS falsy, modelled by the empty
string); otherwise `clearInterval` any existing handle, run the immediate
`checkForNewComments`, and arm a fresh recurring interval.  Returns the new
state and the publish attempts of the immediate check. -/
def startMonitoring (accessToken videoId : String) (env : CycleEnv)
    (s : SchedState) : SchedState × List PublishCall :=
  if accessToken = "" ∨ videoId = "" then (s, [])
  else
    let armed1 :=
      match s.monitor.monitoringInterval with
      | some h => s.armed.erase h
      | none => s.armed
    let (m1, calls) := checkForNewComments accessToken videoId env s.monitor
    ({ monitor := { m1 with monitoringInterval := some s.nextHandle },
       armed := armed1 ++ [s.nextHandle],
       nextHandle := s.nextHandle + 1 },
     calls)

/-- `stopMonitoring()`: clear the interval and null the handle when one is
armed, otherwise a logged no-op. -/
def stopMonitoring (s : SchedState) : SchedState :=
  match s.monitor.monitoringInterval with
  | some h =>
    { s with
      monitor := { s.monitor with monitoringInterval := none },
      armed := s.armed.erase h }
  | none => s

/-- One firing of the armed interval's callback,
`() => checkForNewComments(accessToken, videoId)`: it runs a poll cycle
against the monitor state and touches no timer bookkeeping. -/
def runTickCycle (accessToken videoId : String) (env : CycleEnv)
    (s : SchedState) : SchedState × List PublishCall :=
  let (m, calls) := checkForNewComments accessToken videoId env s.monitor
  ({ s with monitor := m }, calls)

/-! ## Timing of the recurring schedule

`startMonitoring` arms
`setInterval(() => checkForNewComments(accessToken, videoId), intervalMs)`
after the immediate check.  Node's `setInterval` fires the callback at a
fixed rate — the k-th firing is `intervalMs` after the (k-1)-th, independent
of any pending work — and the callback invokes the async
`checkForNewComments` without awaiting it, so cycle k's work starts at its
tick and runs for however long its awaited calls take. -/

/-- Start time of cycle `k`: the immediate check is cycle 0 at time `t0`,
and the k-th recurring firing starts cycle k at `t0 + k * intervalMs`. -/
def cycleStartTime (t0 intervalMs k : Nat) : Nat := t0 + k * intervalMs

/-- End time of cycle `k`, whose awaited work takes `dur k`. -/
def cycleEndTime (t0 intervalMs : Nat) (dur : Nat → Nat) (k : Nat) : Nat :=
  cycleStartTime t0 intervalMs k + dur k

/-! ## Helper lemmas -/

/-- The id a processed thread contributes to the seen set and to the
published reply's parent: its top-level comment's id. -/
def tlcId (t : CommentThread) : String := t.snippet.topLevelComment.id

/-- Seen set left by the processing loop: fold of `addSeen` over the
top-level comment ids. -/
def seenAfter (l : List CommentThread) (seen : List String) : List String :=
  l.foldl (fun s t => addSeen s (tlcId t)) seen

/-- The `newComments` filter of `checkForNewComments`: threads whose own
`id` is not yet in `lastCheckedCommentIds`. -/
def newCommentsOf (st : MonitorState) (comments : List CommentThread) :
    List CommentThread :=
  comments.filter fun comment => !(st.lastCheckedCommentIds.contains comment.id)

theorem addSeen_mem (seen : List String) (c x : String) :
    x ∈ addSeen seen c ↔ x ∈ seen ∨ x = c := by
  unfold addSeen
  by_cases h : seen.contains c
  · have hc : c ∈ seen := List.elem_iff.mp h
    simp only [h, if_pos]
    constructor
    · exact Or.inl
    · rintro (hx | rfl)
      · exact hx
      · exact hc
  · have hc : c ∉ seen := fun hm => h (List.elem_iff.mpr hm)
    simp [h, hc, List.mem_append]

theorem seenAfter_mem (l : List CommentThread) (seen : List String) (x : String) :
    x ∈ seenAfter l seen ↔ x ∈ seen ∨ x ∈ l.map tlcId := by
  induction l generalizing seen with
  | nil => simp [seenAfter]
  | cons t rest ih =>
    simp only [seenAfter, List.foldl_cons, List.map_cons, List.mem_cons]
    rw [show rest.foldl (fun s t => addSeen s (tlcId t)) (addSeen seen (tlcId t)) =
          seenAfter rest (addSeen seen (tlcId t)) from rfl, ih, addSeen_mem]
    tauto

/-- Full characterization of the processing loop: the final seen set is the
fold of `addSeen`, and the publish attempts are one `cycleCall` per thread,
with oracle indices counting up from `i`. -/
theorem processNewComments_eq (accessToken videoId : String) (env : CycleEnv)
    (l : List CommentThread) (i : Nat) (seen : List String) :
    processNewComments accessToken videoId env l i seen =
      (seenAfter l seen,
       (l.enumFrom i).map fun p => cycleCall accessToken videoId env p.1 p.2) := by
  induction l generalizing i seen with
  | nil => simp [processNewComments, seenAfter]
  | cons t rest ih =>
    simp only [processNewComments, ih, List.enumFrom, List.map_cons]
    rfl

theorem checkForNewComments_fetch_error (accessToken videoId : String)
    (env : CycleEnv) (st : MonitorState) (e : String)
    (h : env.fetchResult = .error e) :
    checkForNewComments accessToken videoId env st = (st, []) := by
  simp [checkForNewComments, h]

/-- Full characterization of a successful-fetch cycle: the new comments are
the filtered threads, the seen set grows by their top-level ids, the
interval handle is untouched, and the publish attempts are one `cycleCall`
per new comment in filter order. -/
theorem checkForNewComments_fetch_ok (accessToken videoId : String)
    (env : CycleEnv) (st : MonitorState) (comments : List CommentThread)
    (h : env.fetchResult = .ok comments) :
    checkForNewComments accessToken videoId env st =
      ({ st with lastCheckedCommentIds :=
           seenAfter (newCommentsOf st comments) st.lastCheckedCommentIds },
       ((newCommentsOf st comments).enumFrom 0).map
         fun p => cycleCall accessToken videoId env p.1 p.2) := by
  by_cases hc : comments.isEmpty
  · have : comments = [] := List.isEmpty_iff.mp hc
    subst this
    simp [checkForNewComments, h, newCommentsOf, seenAfter]
  · simp [checkForNewComments, h, hc, newCommentsOf, processNewComments_eq]

theorem parents_of_calls (accessToken videoId : String) (env : CycleEnv)
    (l : List CommentThread) (i : Nat) :
    ((l.enumFrom i).map fun p => cycleCall accessToken videoId env p.1 p.2).map
        (fun c => c.parentCommentId) =
      l.map tlcId := by
  rw [List.map_map]
  have h2 : ((fun c => c.parentCommentId) ∘
        fun p : Nat × CommentThread => cycleCall accessToken videoId env p.1 p.2) =
      fun p : Nat × CommentThread => tlcId p.2 := rfl
  rw [h2, show (fun p : Nat × CommentThread => tlcId p.2) = tlcId ∘ Prod.snd from rfl,
    ← List.map_map, List.enumFrom_map_snd]

/-- Number of publish attempts addressed to parent comment `x` in a list of
calls. -/
def pubCount (x : String) (calls : List PublishCall) : Nat :=
  calls.countP fun c => c.parentCommentId == x

/-- Interface contract of the remote comment source assumed for the dedup
arguments: a successful fetch returns threads with pairwise-distinct ids,
each equal to its top-level comment's id. -/
def GoodEnv (env : CycleEnv) : Prop :=
  ∀ comments, env.fetchResult = .ok comments →
    (comments.map fun t => t.id).Nodup ∧ ∀ t ∈ comments, t.id = tlcId t

theorem pubCount_append (x : String) (a b : List PublishCall) :
    pubCount x (a ++ b) = pubCount x a + pubCount x b := by
  unfold pubCount
  exact List.countP_append _ a b

theorem pubCount_cycle (accessToken videoId x : String) (env : CycleEnv)
    (l : List CommentThread) (i : Nat) :
    pubCount x ((l.enumFrom i).map fun p => cycleCall accessToken videoId env p.1 p.2) =
      (l.map tlcId).count x := by
  unfold pubCount
  rw [List.countP_map]
  rw [show (l.map tlcId).count x = (l.map tlcId).countP (fun b => b == x) from rfl]
  rw [List.countP_map]
  conv_rhs => rw [← List.enumFrom_map_snd i l, List.countP_map]
  rfl

theorem newComments_count_zero_of_seen (st : MonitorState)
    (comments : List CommentThread) (x : String)
    (hx : x ∈ st.lastCheckedCommentIds)
    (hid : ∀ t ∈ comments, t.id = tlcId t) :
    ((newCommentsOf st comments).map tlcId).count x = 0 := by
  apply List.count_eq_zero.mpr
  intro hmem
  obtain ⟨t, ht, hteq⟩ := List.mem_map.mp hmem
  have hfil := List.mem_filter.mp ht
  have hnot : ¬ st.lastCheckedCommentIds.contains t.id := by
    simpa using hfil.2
  apply hnot
  apply List.elem_iff.mpr
  rw [hid t hfil.1, hteq]
  exact hx

theorem newComments_count_le_one (st : MonitorState)
    (comments : List CommentThread) (x : String)
    (hnd : (comments.map fun t => t.id).Nodup)
    (hid : ∀ t ∈ comments, t.id = tlcId t) :
    ((newCommentsOf st comments).map tlcId).count x ≤ 1 := by
  have hmaps : (newCommentsOf st comments).map tlcId =
      (newCommentsOf st comments).map fun t => t.id := by
    apply List.map_eq_map_iff.mpr
    intro t ht
    exact (hid t (List.mem_filter.mp ht).1).symm
  have hsub : List.Sublist ((newCommentsOf st comments).map fun t => t.id)
      (comments.map fun t => t.id) :=
    List.Sublist.map _ (List.filter_sublist comments)
  rw [hmaps]
  calc ((newCommentsOf st comments).map fun t => t.id).count x
      ≤ (comments.map fun t => t.id).count x := List.Sublist.count_le hsub x
    _ ≤ 1 := List.nodup_iff_count_le_one.mp hnd x

theorem mem_seenAfter_of_count_ne_zero (l : List CommentThread)
    (seen : List String) (x : String) (h : (l.map tlcId).count x ≠ 0) :
    x ∈ seenAfter l seen := by
  apply (seenAfter_mem l seen x).mpr
  right
  by_contra hm
  exact h (List.count_eq_zero.mpr hm)

theorem checkForNewComments_seen_mono (accessToken videoId x : String)
    (env : CycleEnv) (st : MonitorState)
    (hx : x ∈ st.lastCheckedCommentIds) :
    x ∈ (checkForNewComments accessToken videoId env st).1.lastCheckedCommentIds := by
  cases hfr : env.fetchResult with
  | error e => rw [checkForNewComments_fetch_error accessToken videoId env st e hfr]; exact hx
  | ok comments =>
    rw [checkForNewComments_fetch_ok accessToken videoId env st comments hfr]
    exact (seenAfter_mem _ _ x).mpr (Or.inl hx)

/-- Once an id is in the seen set, no later cycle of the run publishes to it
(given the source contract), and it stays in the seen set. -/
theorem runCycles_seen_no_pub (accessToken videoId x : String)
    (envs : List CycleEnv) (st : MonitorState)
    (hgood : ∀ env ∈ envs, GoodEnv env)
    (hx : x ∈ st.lastCheckedCommentIds) :
    pubCount x (runCycles accessToken videoId envs st).2 = 0 ∧
      x ∈ (runCycles accessToken videoId envs st).1.lastCheckedCommentIds := by
  induction envs generalizing st with
  | nil => exact ⟨rfl, hx⟩
  | cons env envs ih =>
    have hgoodEnv : GoodEnv env := hgood env (List.mem_cons_self env envs)
    have hgoodRest : ∀ e ∈ envs, GoodEnv e := fun e he => hgood e (List.mem_cons_of_mem env he)
    have hx1 : x ∈ (checkForNewComments accessToken videoId env st).1.lastCheckedCommentIds :=
      checkForNewComments_seen_mono accessToken videoId x env st hx
    have hcycle : pubCount x (checkForNewComments accessToken videoId env st).2 = 0 := by
      cases hfr : env.fetchResult with
      | error e =>
        rw [checkForNewComments_fetch_error accessToken videoId env st e hfr]
        rfl
      | ok comments =>
        rw [checkForNewComments_fetch_ok accessToken videoId env st comments hfr]
        rw [pubCount_cycle]
        exact newComments_count_zero_of_seen st comments x hx (hgoodEnv comments hfr).2
    have hrest := ih (checkForNewComments accessToken videoId env st).1 hgoodRest hx1
    refine ⟨?_, ?_⟩
    · show pubCount x ((checkForNewComments accessToken videoId env st).2 ++
        (runCycles accessToken videoId envs
          (checkForNewComments accessToken videoId env st).1).2) = 0
      rw [pubCount_append, hcycle, hrest.1]
    · exact hrest.2

/-- At-most-once publish across a run, given the source contract. -/
theorem runCycles_pubCount_le_one (accessToken videoId x : String)
    (envs : List CycleEnv) (st : MonitorState)
    (hgood : ∀ env ∈ envs, GoodEnv env) :
    pubCount x (runCycles accessToken videoId envs st).2 ≤ 1 := by
  induction envs generalizing st with
  | nil => exact Nat.zero_le 1
  | cons env envs ih =>
    have hgoodEnv : GoodEnv env := hgood env (List.mem_cons_self env envs)
    have hgoodRest : ∀ e ∈ envs, GoodEnv e := fun e he => hgood e (List.mem_cons_of_mem env he)
    show pubCount x ((checkForNewComments accessToken videoId env st).2 ++
      (runCycles accessToken videoId envs
        (checkForNewComments accessToken videoId env st).1).2) ≤ 1
    rw [pubCount_append]
    cases hfr : env.fetchResult with
    | error e =>
      rw [checkForNewComments_fetch_error accessToken videoId env st e hfr]
      show pubCount x [] + _ ≤ 1
      rw [show pubCount x [] = 0 from rfl, Nat.zero_add]
      exact ih st hgoodRest
    | ok comments =>
      have hcalls : pubCount x (checkForNewComments accessToken videoId env st).2 =
          ((newCommentsOf st comments).map tlcId).count x := by
        rw [checkForNewComments_fetch_ok accessToken videoId env st comments hfr, pubCount_cycle]
      by_cases hz : ((newCommentsOf st comments).map tlcId).count x = 0
      · rw [hcalls, hz, Nat.zero_add]
        exact ih (checkForNewComments accessToken videoId env st).1 hgoodRest
      · have hle : ((newCommentsOf st comments).map tlcId).count x ≤ 1 :=
          newComments_count_le_one st comments x (hgoodEnv comments hfr).1 (hgoodEnv comments hfr).2
        have hmem : x ∈ (checkForNewComments accessToken videoId env st).1.lastCheckedCommentIds := by
          rw [checkForNewComments_fetch_ok accessToken videoId env st comments hfr]
          exact mem_seenAfter_of_count_ne_zero _ _ x hz
        have hrest := runCycles_seen_no_pub accessToken videoId x envs
          (checkForNewComments accessToken videoId env st).1 hgoodRest hmem
        rw [hcalls, hrest.1]
        omega

/-- Per-position characterization of a cycle's publish attempts. -/
theorem calls_getElem (accessToken videoId : String) (env : CycleEnv)
    (l : List CommentThread) (i j : Nat) :
    ((l.enumFrom i).map fun p => cycleCall accessToken videoId env p.1 p.2)[j]? =
      (l[j]?).map (cycleCall accessToken videoId env (i + j)) := by
  rw [List.getElem?_map, List.getElem?_enumFrom]
  cases l[j]? <;> rfl

/-! ## Scheduler bookkeeping invariant -/

/-- The runtime invariant tying the monitor's stored handle to the set of
live timers: when a handle is stored it is the unique armed timer and was
handed out by the counter; when none is stored no timer of the monitor is
armed. It holds for the initial state (no handle, nothing armed) and is
preserved by `startMonitoring` and `stopMonitoring`. -/
def WellFormedSched (s : SchedState) : Prop :=
  (∀ h, s.monitor.monitoringInterval = some h → h < s.nextHandle ∧ s.armed = [h]) ∧
  (s.monitor.monitoringInterval = none → s.armed = [])

theorem startMonitoring_valid_eq (accessToken videoId : String) (env : CycleEnv)
    (s : SchedState) (hwf : WellFormedSched s)
    (htok : accessToken ≠ "") (hvid : videoId ≠ "") :
    (startMonitoring accessToken videoId env s).1 =
      { monitor := { (checkForNewComments accessToken videoId env s.monitor).1 with
          monitoringInterval := some s.nextHandle },
        armed := [s.nextHandle],
        nextHandle := s.nextHandle + 1 } := by
  have hcond : ¬ (accessToken = "" ∨ videoId = "") := by
    rintro (h | h)
    · exact htok h
    · exact hvid h
  unfold startMonitoring
  rw [if_neg hcond]
  have harmed : (match s.monitor.monitoringInterval with
      | some h => s.armed.erase h
      | none => s.armed) = [] := by
    cases hmi : s.monitor.monitoringInterval with
    | some h =>
      rw [(hwf.1 h hmi).2]
      exact List.erase_cons_head h []
    | none => exact hwf.2 hmi
  simp only [harmed]
  rfl

theorem startMonitoring_valid_wf (accessToken videoId : String) (env : CycleEnv)
    (s : SchedState) (hwf : WellFormedSched s)
    (htok : accessToken ≠ "") (hvid : videoId ≠ "") :
    WellFormedSched (startMonitoring accessToken videoId env s).1 := by
  rw [startMonitoring_valid_eq accessToken videoId env s hwf htok hvid]
  constructor
  · intro h hsome
    cases hsome
    exact ⟨Nat.lt_succ_self _, rfl⟩
  · intro hnone
    cases hnone

theorem startMonitoring_invalid_eq (accessToken videoId : String) (env : CycleEnv)
    (s : SchedState) (h : accessToken = "" ∨ videoId = "") :
    startMonitoring accessToken videoId env s = (s, []) := by
  unfold startMonitoring
  rw [if_pos h]

theorem stopMonitoring_seen (s : SchedState) :
    (stopMonitoring s).monitor.lastCheckedCommentIds =
      s.monitor.lastCheckedCommentIds := by
  unfold stopMonitoring
  cases s.monitor.monitoringInterval <;> rfl

theorem startMonitoring_seen_mono (accessToken videoId x : String)
    (env : CycleEnv) (s : SchedState)
    (hx : x ∈ s.monitor.lastCheckedCommentIds) :
    x ∈ (startMonitoring accessToken videoId env s).1.monitor.lastCheckedCommentIds := by
  unfold startMonitoring
  by_cases hcond : accessToken = "" ∨ videoId = ""
  · rw [if_pos hcond]
    exact hx
  · rw [if_neg hcond]
    exact checkForNewComments_seen_mono accessToken videoId x env s.monitor hx

theorem startMonitoring_no_pub_seen (accessToken videoId x : String)
    (env : CycleEnv) (s : SchedState)
    (hx : x ∈ s.monitor.lastCheckedCommentIds)
    (hid : ∀ comments, env.fetchResult = .ok comments → ∀ t ∈ comments, t.id = tlcId t) :
    ∀ c ∈ (startMonitoring accessToken videoId env s).2, c.parentCommentId ≠ x := by
  unfold startMonitoring
  by_cases hcond : accessToken = "" ∨ videoId = ""
  · rw [if_pos hcond]
    intro c hc
    cases hc
  · rw [if_neg hcond]
    intro c hc
    have hcount : pubCount x (checkForNewComments accessToken videoId env s.monitor).2 = 0 := by
      cases hfr : env.fetchResult with
      | error e =>
        rw [checkForNewComments_fetch_error accessToken videoId env s.monitor e hfr]
        rfl
      | ok comments =>
        rw [checkForNewComments_fetch_ok accessToken videoId env s.monitor comments hfr,
          pubCount_cycle]
        exact newComments_count_zero_of_seen s.monitor comments x hx (hid comments hfr)
    have := List.countP_eq_zero.mp hcount c hc
    intro heq
    apply this
    simp [heq]

/-! ## Concrete fixtures for witnesses and counterexamples -/

/-- A thread whose own id differs from its top-level comment's id. -/
def mismatchThread : CommentThread :=
  { id := "t1", snippet := { topLevelComment :=
      { id := "c1", snippet := { textOriginal := "hello", authorDisplayName := "alice" } } } }

/-- A thread whose own id equals its top-level comment's id, as the live
remote source returns them. -/
def alignedThread : CommentThread :=
  { id := "c1", snippet := { topLevelComment :=
      { id := "c1", snippet := { textOriginal := "hello", authorDisplayName := "alice" } } } }

/-- A second aligned thread. -/
def alignedThread2 : CommentThread :=
  { id := "c2", snippet := { topLevelComment :=
      { id := "c2", snippet := { textOriginal := "hi", authorDisplayName := "bob" } } } }

/-- Cycle environment fetching the mismatched thread, gemini unavailable,
publish succeeding. -/
def mismatchEnv : CycleEnv :=
  { fetchResult := .ok [mismatchThread], geminiAvailable := false,
    gen := fun _ => .throwErr, post := fun _ => true }

/-- Cycle environment fetching one aligned thread with the generator
available but its HTTP call failing. -/
def genFailEnv : CycleEnv :=
  { fetchResult := .ok [alignedThread], geminiAvailable := true,
    gen := fun _ => .notOk, post := fun _ => true }

/-- Cycle environment fetching both aligned threads, generator unavailable,
publish succeeding. -/
def alignedEnv : CycleEnv :=
  { fetchResult := .ok [alignedThread, alignedThread2], geminiAvailable := false,
    gen := fun _ => .throwErr, post := fun _ => true }

/-- Cycle environment whose fetch fails. -/
def fetchFailEnv : CycleEnv :=
  { fetchResult := .error "network down", geminiAvailable := true,
    gen := fun _ => .ok { candidates := none }, post := fun _ => true }

/-- An idle initial monitor state. -/
def initialState : MonitorState :=
  { monitoringInterval := none, lastCheckedCommentIds := [] }

/-- An idle initial scheduler state. -/
def initialSched : SchedState :=
  { monitor := initialState, armed := [], nextHandle := 0 }

/-- A scheduler state with an armed schedule and one seen id. -/
def activeSched : SchedState :=
  { monitor := { monitoringInterval := some 0, lastCheckedCommentIds := ["c1"] },
    armed := [0], nextHandle := 1 }

/-! ## Claims -/

/-- C1 (counterexample): as stated, the claim is false on the code — the
new-comment filter tests the thread's `id` while the seen set records the
top-level comment's `id`.  With a thread whose two ids differ ("t1" vs
"c1"), two cycles fetching the same thread attempt a publish for comment
"c1" twice in one run. -/
theorem dedup_mismatch_double_publish :
    pubCount "c1" (runCycles "tok" "vid" [mismatchEnv, mismatchEnv] initialState).2 = 2 ∧
    (runCycles "tok" "vid" [mismatchEnv, mismatchEnv] initialState).1.lastCheckedCommentIds
      = ["c1"] := by
  decide

/-- C1 (amended): provided the remote comment source's contract holds — every
successful fetch returns threads with pairwise-distinct ids, each equal to its
top-level comment's id — a publish is attempted for any comment id at most
once across a run of poll cycles. -/
theorem dedup_publish_at_most_once (accessToken videoId x : String)
    (envs : List CycleEnv) (st : MonitorState)
    (hgood : ∀ env ∈ envs, GoodEnv env) :
    pubCount x (runCycles accessToken videoId envs st).2 ≤ 1 :=
  runCycles_pubCount_le_one accessToken videoId x envs st hgood

/-- C1 (witness): the amended dedup theorem applied to a concrete two-cycle
run fetching the same aligned comment twice. -/
theorem dedup_publish_at_most_once_witness :
    pubCount "c1" (runCycles "tok" "vid" [alignedEnv, alignedEnv] initialState).2 ≤ 1 := by
  apply dedup_publish_at_most_once "tok" "vid" "c1" [alignedEnv, alignedEnv] initialState
  intro env henv comments hok
  have henv2 : env = alignedEnv := by
    rcases List.mem_cons.mp henv with h | h
    · exact h
    · rcases List.mem_cons.mp h with h2 | h2
      · exact h2
      · cases h2
  subst henv2
  have hc : comments = [alignedThread, alignedThread2] := by
    have : (Except.ok [alignedThread, alignedThread2] :
        Except String (List CommentThread)) = .ok comments := hok
    cases this
    rfl
  subst hc
  refine ⟨by decide, by decide⟩

/-- C2 (counterexample): when the Remote Text Generator's HTTP call fails,
the monitor does not publish the deterministic template — `generateText`
resolves with the placeholder "Error generating reply." instead of
rejecting, so the monitor's fallback `catch` never runs and the placeholder
is what gets published. -/
theorem generator_failure_publishes_placeholder_not_template :
    ((checkForNewComments "tok" "vid" genFailEnv initialState).2.map
        fun c => c.textContent) = ["Error generating reply."] ∧
    defaultReply "alice" = "Thanks for your comment, alice!" ∧
    ("Error generating reply." : String) ≠ "Thanks for your comment, alice!" := by
  decide

/-- C2 (amended): every new comment of a cycle still receives exactly one
publish call; its text is the deterministic template only when the generator
function is unavailable, and otherwise it is whatever string `generateText`
resolves with — in particular the placeholder "Error generating reply." when
the generator's HTTP call fails or throws. -/
theorem cycle_reply_text (accessToken videoId : String) (env : CycleEnv)
    (st : MonitorState) (comments : List CommentThread)
    (hok : env.fetchResult = .ok comments) (j : Nat) (t : CommentThread)
    (ht : (newCommentsOf st comments)[j]? = some t) :
    (checkForNewComments accessToken videoId env st).2.length =
      (newCommentsOf st comments).length ∧
    (checkForNewComments accessToken videoId env st).2[j]? =
      some (cycleCall accessToken videoId env j t) ∧
    (cycleCall accessToken videoId env j t).textContent =
      (if env.geminiAvailable then
        generateText (replyPrompt t.snippet.topLevelComment.snippet.textOriginal) (env.gen j)
      else
        defaultReply t.snippet.topLevelComment.snippet.authorDisplayName) := by
  rw [checkForNewComments_fetch_ok accessToken videoId env st comments hok]
  refine ⟨?_, ?_, rfl⟩
  · rw [List.length_map, List.enumFrom_length]
  · rw [calls_getElem accessToken videoId env _ 0 j, ht]
    rw [Nat.zero_add]
    rfl

/-- C2 (witness): the amended reply-text theorem applied to a concrete cycle
whose generator call fails, evaluating to the placeholder text. -/
theorem cycle_reply_text_witness :
    (checkForNewComments "tok" "vid" genFailEnv initialState).2.length =
      (newCommentsOf initialState [alignedThread]).length ∧
    (checkForNewComments "tok" "vid" genFailEnv initialState).2[0]? =
      some (cycleCall "tok" "vid" genFailEnv 0 alignedThread) ∧
    (cycleCall "tok" "vid" genFailEnv 0 alignedThread).textContent =
      (if genFailEnv.geminiAvailable then
        generateText (replyPrompt alignedThread.snippet.topLevelComment.snippet.textOriginal)
          (genFailEnv.gen 0)
      else
        defaultReply alignedThread.snippet.topLevelComment.snippet.authorDisplayName) :=
  cycle_reply_text "tok" "vid" genFailEnv initialState [alignedThread] rfl 0 alignedThread
    (by decide)

/-- C3 (counterexample): the recurring schedule is a fixed-rate
`setInterval` whose callback does not await the asynchronous cycle, so with
`pollIntervalMs = 1` and a cycle whose awaited work takes 3, cycle 1 begins
(at time 1) before cycle 0's work completes (at time 3): cycles overlap. -/
theorem slow_cycle_overlaps_next_tick :
    cycleStartTime 0 1 1 < cycleEndTime 0 1 (fun _ => 3) 0 := by
  decide

/-- C3 (amended): poll cycles do not overlap only when every cycle's
processing time is at most `pollIntervalMs`; under that bound, every earlier
cycle's work ends no later than any later cycle starts. -/
theorem no_overlap_when_cycles_fit_interval (t0 intervalMs : Nat)
    (dur : Nat → Nat) (hdur : ∀ k, dur k ≤ intervalMs)
    (j k : Nat) (hjk : j < k) :
    cycleEndTime t0 intervalMs dur j ≤ cycleStartTime t0 intervalMs k := by
  unfold cycleEndTime cycleStartTime
  have h1 : t0 + j * intervalMs + dur j ≤ t0 + j * intervalMs + intervalMs :=
    Nat.add_le_add_left (hdur j) _
  have h2 : j * intervalMs + intervalMs = (j + 1) * intervalMs := (Nat.succ_mul j intervalMs).symm
  have h3 : (j + 1) * intervalMs ≤ k * intervalMs :=
    Nat.mul_le_mul_right intervalMs hjk
  calc t0 + j * intervalMs + dur j
      ≤ t0 + j * intervalMs + intervalMs := h1
    _ = t0 + (j + 1) * intervalMs := by rw [Nat.add_assoc, h2]
    _ ≤ t0 + k * intervalMs := Nat.add_le_add_left h3 t0

/-- C3 (witness): the amended no-overlap theorem at interval 5 with all
cycle durations 4. -/
theorem no_overlap_when_cycles_fit_interval_witness :
    cycleEndTime 0 5 (fun _ => 4) 0 ≤ cycleStartTime 0 5 1 :=
  no_overlap_when_cycles_fit_interval 0 5 (fun _ => 4) (fun _ => Nat.le_succ 4) 0 1 (by decide)

/-- Cycle environment fetching one aligned thread with every publish
attempt failing. -/
def failPostEnv : CycleEnv :=
  { fetchResult := .ok [alignedThread], geminiAvailable := false,
    gen := fun _ => .throwErr, post := fun _ => false }

/-- Cycle environment fetching a mismatched-id thread with every publish
attempt failing. -/
def mismatchFailPostEnv : CycleEnv :=
  { fetchResult := .ok [{ id := "t9", snippet := { topLevelComment :=
      { id := "c9", snippet := { textOriginal := "hey", authorDisplayName := "bob" } } } }],
    geminiAvailable := false, gen := fun _ => .throwErr, post := fun _ => false }

/-- Cycle environment fetching one fresh aligned comment ("c2"). -/
def freshCommentEnv : CycleEnv :=
  { fetchResult := .ok [alignedThread2], geminiAvailable := false,
    gen := fun _ => .throwErr, post := fun _ => true }

/-- C4 (counterexample): "at most one publish attempt per comment per
process lifetime" fails as stated — with a thread whose own id ("t9")
differs from its top-level comment's id ("c9"), two cycles each attempt a
publish for comment "c9" even though its id was recorded in the seen set
after the first attempt (and even though every attempt fails). -/
theorem publish_attempted_twice_across_cycles :
    pubCount "c9" (runCycles "tok" "vid" [mismatchFailPostEnv, mismatchFailPostEnv]
      initialState).2 = 2 ∧
    (runCycles "tok" "vid" [mismatchFailPostEnv, mismatchFailPostEnv]
      initialState).1.lastCheckedCommentIds = ["c9"] := by
  decide

/-- C4 (amended): within a cycle every new comment's top-level id is added
to the seen set whatever the publish outcomes; the publish attempts — one
per new comment — and the resulting seen set are independent of which
publish attempts fail; and across a run, at most one attempt is made per
comment id provided the source's contract (distinct thread ids equal to
their top-level comment ids) holds. -/
theorem seen_recorded_and_single_attempt (accessToken videoId : String)
    (env : CycleEnv) (q : Nat → Bool) (st : MonitorState)
    (comments : List CommentThread) (hok : env.fetchResult = .ok comments) :
    (∀ t ∈ newCommentsOf st comments,
        tlcId t ∈ (checkForNewComments accessToken videoId env st).1.lastCheckedCommentIds) ∧
    ((checkForNewComments accessToken videoId env st).2.map fun c => c.parentCommentId) =
        (newCommentsOf st comments).map tlcId ∧
    (checkForNewComments accessToken videoId { env with post := q } st).1 =
        (checkForNewComments accessToken videoId env st).1 ∧
    ((checkForNewComments accessToken videoId { env with post := q } st).2.map
        fun c => (c.parentCommentId, c.textContent)) =
      ((checkForNewComments accessToken videoId env st).2.map
        fun c => (c.parentCommentId, c.textContent)) ∧
    ∀ (envs : List CycleEnv) (st0 : MonitorState) (x : String),
      (∀ e ∈ envs, GoodEnv e) →
        pubCount x (runCycles accessToken videoId envs st0).2 ≤ 1 := by
  have hok2 : ({ env with post := q } : CycleEnv).fetchResult = .ok comments := hok
  refine ⟨?_, ?_, ?_, ?_, ?_⟩
  · intro t ht
    rw [checkForNewComments_fetch_ok accessToken videoId env st comments hok]
    exact (seenAfter_mem _ _ _).mpr (Or.inr (List.mem_map_of_mem tlcId ht))
  · rw [checkForNewComments_fetch_ok accessToken videoId env st comments hok]
    exact parents_of_calls accessToken videoId env _ 0
  · rw [checkForNewComments_fetch_ok accessToken videoId env st comments hok,
      checkForNewComments_fetch_ok accessToken videoId { env with post := q } st comments hok2]
  · rw [checkForNewComments_fetch_ok accessToken videoId env st comments hok,
      checkForNewComments_fetch_ok accessToken videoId { env with post := q } st comments hok2,
      List.map_map, List.map_map]
    rfl
  · exact fun envs st0 x h => runCycles_pubCount_le_one accessToken videoId x envs st0 h

/-- C4 (witness): with every publish attempt failing, the comment's id is
still recorded and exactly one attempt (addressed to it) is made. -/
theorem seen_recorded_and_single_attempt_witness :
    tlcId alignedThread ∈
      (checkForNewComments "tok" "vid" failPostEnv initialState).1.lastCheckedCommentIds ∧
    ((checkForNewComments "tok" "vid" failPostEnv initialState).2.map
        fun c => c.parentCommentId) =
      (newCommentsOf initialState [alignedThread]).map tlcId :=
  ⟨(seen_recorded_and_single_attempt "tok" "vid" failPostEnv (fun _ => true) initialState
      [alignedThread] rfl).1 alignedThread (by decide),
   (seen_recorded_and_single_attempt "tok" "vid" failPostEnv (fun _ => true) initialState
      [alignedThread] rfl).2.1⟩

/-- C5: when the fetch from the remote comment source fails, the interval
callback's cycle returns with the entire scheduler state unchanged — same
seen set, same armed timers, same handle — and no publish attempt; the
error is absorbed inside the cycle, so the recurring schedule stays armed
for the next tick. -/
theorem fetch_failure_cycle_isolation (accessToken videoId : String)
    (env : CycleEnv) (s : SchedState) (e : String)
    (hfail : env.fetchResult = .error e) :
    runTickCycle accessToken videoId env s = (s, []) := by
  unfold runTickCycle
  rw [checkForNewComments_fetch_error accessToken videoId env s.monitor e hfail]

/-- C5 (witness): a concrete failing fetch against an active monitor. -/
theorem fetch_failure_cycle_isolation_witness :
    runTickCycle "tok" "vid" fetchFailEnv activeSched = (activeSched, []) :=
  fetch_failure_cycle_isolation "tok" "vid" fetchFailEnv activeSched "network down" rfl

/-- C6: calling start twice in succession leaves exactly one live recurring
schedule — the second start cancels the first's timer handle before arming
its own. -/
theorem double_start_single_schedule (tok1 vid1 tok2 vid2 : String)
    (env1 env2 : CycleEnv) (s : SchedState) (hwf : WellFormedSched s)
    (h1 : tok1 ≠ "") (h2 : vid1 ≠ "") (h3 : tok2 ≠ "") (h4 : vid2 ≠ "") :
    (startMonitoring tok1 vid1 env1 s).1.armed = [s.nextHandle] ∧
    (startMonitoring tok2 vid2 env2 (startMonitoring tok1 vid1 env1 s).1).1.armed =
      [s.nextHandle + 1] ∧
    (startMonitoring tok2 vid2 env2 (startMonitoring tok1 vid1 env1 s).1).1.armed.length = 1 ∧
    s.nextHandle ∉
      (startMonitoring tok2 vid2 env2 (startMonitoring tok1 vid1 env1 s).1).1.armed := by
  have e1 := startMonitoring_valid_eq tok1 vid1 env1 s hwf h1 h2
  have w1 := startMonitoring_valid_wf tok1 vid1 env1 s hwf h1 h2
  have e2 := startMonitoring_valid_eq tok2 vid2 env2 _ w1 h3 h4
  refine ⟨by rw [e1], ?_, ?_, ?_⟩
  · rw [e2, e1]
  · rw [e2]
    rfl
  · rw [e2, e1]
    intro hmem
    simp at hmem

/-- C6 (witness): two concrete starts from the idle initial state. -/
theorem double_start_single_schedule_witness :
    (startMonitoring "tok" "vid" freshCommentEnv initialSched).1.armed = [initialSched.nextHandle] ∧
    (startMonitoring "tok2" "vid2" freshCommentEnv
      (startMonitoring "tok" "vid" freshCommentEnv initialSched).1).1.armed =
        [initialSched.nextHandle + 1] ∧
    (startMonitoring "tok2" "vid2" freshCommentEnv
      (startMonitoring "tok" "vid" freshCommentEnv initialSched).1).1.armed.length = 1 ∧
    initialSched.nextHandle ∉
      (startMonitoring "tok2" "vid2" freshCommentEnv
        (startMonitoring "tok" "vid" freshCommentEnv initialSched).1).1.armed :=
  double_start_single_schedule "tok" "vid" "tok2" "vid2" freshCommentEnv freshCommentEnv
    initialSched ⟨(fun h hsome => nomatch hsome), fun _ => rfl⟩
    (by decide) (by decide) (by decide) (by decide)

/-- C7: start with a missing (falsy) credential or content identifier is a
synchronous no-op — no schedule armed, no poll cycle run, no publish call,
monitor state (handle, seen set, timers) unchanged. -/
theorem start_missing_credentials_noop (accessToken videoId : String)
    (env : CycleEnv) (s : SchedState) (h : accessToken = "" ∨ videoId = "") :
    startMonitoring accessToken videoId env s = (s, []) :=
  startMonitoring_invalid_eq accessToken videoId env s h

/-- C7 (witness): a start with an empty access token against an active
monitor changes nothing. -/
theorem start_missing_credentials_noop_witness :
    startMonitoring "" "vid" freshCommentEnv activeSched = (activeSched, []) :=
  start_missing_credentials_noop "" "vid" freshCommentEnv activeSched (Or.inl rfl)

/-- C8: within one cycle the publish attempts are in one-to-one, order-
preserving correspondence with the filtered new comments: the j-th attempt
is addressed to the j-th new comment, in the order the source returned
them. -/
theorem cycle_order_preservation (accessToken videoId : String)
    (env : CycleEnv) (st : MonitorState) (comments : List CommentThread)
    (hok : env.fetchResult = .ok comments) :
    ((checkForNewComments accessToken videoId env st).2.map fun c => c.parentCommentId) =
      (newCommentsOf st comments).map tlcId ∧
    ∀ j, (checkForNewComments accessToken videoId env st).2[j]? =
      ((newCommentsOf st comments)[j]?).map (cycleCall accessToken videoId env j) := by
  rw [checkForNewComments_fetch_ok accessToken videoId env st comments hok]
  refine ⟨parents_of_calls accessToken videoId env _ 0, ?_⟩
  intro j
  rw [calls_getElem accessToken videoId env _ 0 j, Nat.zero_add]

/-- C8 (witness): a concrete two-comment cycle publishes to "c1" then "c2",
in fetch order. -/
theorem cycle_order_preservation_witness :
    ((checkForNewComments "tok" "vid" alignedEnv initialState).2.map
        fun c => c.parentCommentId) =
      (newCommentsOf initialState [alignedThread, alignedThread2]).map tlcId ∧
    (checkForNewComments "tok" "vid" alignedEnv initialState).2[1]? =
      ((newCommentsOf initialState [alignedThread, alignedThread2])[1]?).map
        (cycleCall "tok" "vid" alignedEnv 1) :=
  ⟨(cycle_order_preservation "tok" "vid" alignedEnv initialState
      [alignedThread, alignedThread2] rfl).1,
   (cycle_order_preservation "tok" "vid" alignedEnv initialState
      [alignedThread, alignedThread2] rfl).2 1⟩

/-- C9 (counterexample): a stop/start sequence does not leave the seen set
exactly as it was — start fires an immediate poll cycle, and when that
cycle's fetch returns a fresh comment its id is added, so the set after the
sequence differs from the set before. -/
theorem restart_cycle_extends_seen_set :
    (startMonitoring "tok" "vid" freshCommentEnv
        (stopMonitoring activeSched)).1.monitor.lastCheckedCommentIds ≠
      activeSched.monitor.lastCheckedCommentIds := by
  decide

/-- C9 (amended): stop leaves the seen set unchanged and start never removes
ids from it (the set only grows by the immediate cycle's new comments), so —
given the source returns thread ids equal to their top-level comment ids —
an id seen before a stop/start sequence is still seen afterwards and receives
no further publish attempt during the restart cycle. -/
theorem stop_start_preserve_seen_ids (accessToken videoId x : String)
    (env : CycleEnv) (s : SchedState)
    (hx : x ∈ s.monitor.lastCheckedCommentIds)
    (hid : ∀ comments, env.fetchResult = .ok comments →
      ∀ t ∈ comments, t.id = tlcId t) :
    (stopMonitoring s).monitor.lastCheckedCommentIds =
      s.monitor.lastCheckedCommentIds ∧
    x ∈ (startMonitoring accessToken videoId env
      (stopMonitoring s)).1.monitor.lastCheckedCommentIds ∧
    ∀ c ∈ (startMonitoring accessToken videoId env (stopMonitoring s)).2,
      c.parentCommentId ≠ x := by
  have hstop := stopMonitoring_seen s
  have hx2 : x ∈ (stopMonitoring s).monitor.lastCheckedCommentIds := by
    rw [hstop]; exact hx
  exact ⟨hstop,
    startMonitoring_seen_mono accessToken videoId x env (stopMonitoring s) hx2,
    startMonitoring_no_pub_seen accessToken videoId x env (stopMonitoring s) hx2 hid⟩

/-- C9 (witness): a concrete stop/start with a fresh comment arriving: the
previously seen id "c1" survives the restart. -/
theorem stop_start_preserve_seen_ids_witness :
    (stopMonitoring activeSched).monitor.lastCheckedCommentIds =
      activeSched.monitor.lastCheckedCommentIds ∧
    "c1" ∈ (startMonitoring "tok" "vid" freshCommentEnv
      (stopMonitoring activeSched)).1.monitor.lastCheckedCommentIds :=
  ⟨(stop_start_preserve_seen_ids "tok" "vid" "c1" freshCommentEnv activeSched
      (by decide) (fun comments hok => by cases hok; decide)).1,
   (stop_start_preserve_seen_ids "tok" "vid" "c1" freshCommentEnv activeSched
      (by decide) (fun comments hok => by cases hok; decide)).2.1⟩

/-- C10: `generateText` never rejects — it resolves with the placeholder
"Error generating reply." when its HTTP call fails or throws, and with
"Could not generate a reply." when a well-formed response has no candidates;
and in the monitor these resolved strings become the text of the publish
attempt for the corresponding new comment. -/
theorem generateText_resolves_with_placeholders (prompt : String)
    (r : GeminiResponse) (hr : r.candidates = none ∨ r.candidates = some [])
    (accessToken videoId : String) (env : CycleEnv) (st : MonitorState)
    (comments : List CommentThread) (hok : env.fetchResult = .ok comments)
    (hg : env.geminiAvailable = true) (j : Nat) (t : CommentThread)
    (ht : (newCommentsOf st comments)[j]? = some t) :
    generateText prompt .throwErr = "Error generating reply." ∧
    generateText prompt .notOk = "Error generating reply." ∧
    generateText prompt (.ok r) = "Could not generate a reply." ∧
    ∃ c, (checkForNewComments accessToken videoId env st).2[j]? = some c ∧
      c.textContent =
        generateText (replyPrompt t.snippet.topLevelComment.snippet.textOriginal)
          (env.gen j) := by
  refine ⟨rfl, rfl, ?_, ?_⟩
  · rcases hr with h | h <;> simp [generateText, h]
  · refine ⟨cycleCall accessToken videoId env j t, ?_, ?_⟩
    · rw [checkForNewComments_fetch_ok accessToken videoId env st comments hok,
        calls_getElem accessToken videoId env _ 0 j, ht, Nat.zero_add]
      rfl
    · show (if env.geminiAvailable then _ else _) = _
      rw [hg]
      rfl

/-- C10 (witness): all placeholder paths at concrete inputs, plus the
placeholder reaching the published text of a concrete cycle. -/
theorem generateText_resolves_with_placeholders_witness :
    generateText "p" .throwErr = "Error generating reply." ∧
    generateText "p" .notOk = "Error generating reply." ∧
    generateText "p" (.ok { candidates := none }) = "Could not generate a reply." ∧
    ∃ c, (checkForNewComments "tok" "vid" genFailEnv initialState).2[0]? = some c ∧
      c.textContent =
        generateText (replyPrompt alignedThread.snippet.topLevelComment.snippet.textOriginal)
          (genFailEnv.gen 0) :=
  generateText_resolves_with_placeholders "p" { candidates := none } (Or.inl rfl)
    "tok" "vid" genFailEnv initialState [alignedThread] rfl rfl 0 alignedThread (by decide)

end Dashboard
